import Mathlib

/-!
Shallow embedding of the state-preparation core of the avian rigid-body
physics engine: the mass-property algebra and effective-property accessors of
src/dynamics/rigid_body/world_query.rs, and the transform initialization and
restitution clamping of src/prepare.rs.

Scalars are modelled as rationals (exact arithmetic). The source compiles in
a 2d and a 3d configuration; both are embedded where the verified operations
differ between them. The 2d configuration uses a scalar angular inertia and
2-vectors; the 3d configuration uses 3x3 inertia tensors, 3-vectors and
quaternion rotations.
-/

/-- A 2-vector of rationals, the 2d `Vector` type of the source. -/
structure Vec2 where
  x : ℚ
  y : ℚ
deriving DecidableEq

instance : Add Vec2 := ⟨fun a b => ⟨a.x + b.x, a.y + b.y⟩⟩

instance : Sub Vec2 := ⟨fun a b => ⟨a.x - b.x, a.y - b.y⟩⟩

instance : HMul Vec2 ℚ Vec2 := ⟨fun a c => ⟨a.x * c, a.y * c⟩⟩

instance : HMul ℚ Vec2 Vec2 := ⟨fun c a => ⟨c * a.x, c * a.y⟩⟩

instance : HDiv Vec2 ℚ Vec2 := ⟨fun a c => ⟨a.x / c, a.y / c⟩⟩

/-- The zero 2-vector, `Vector::ZERO`. -/
def Vec2.zero : Vec2 := ⟨0, 0⟩

/-- `Vector::splat`: both components set to the same scalar. -/
def Vec2.splat (c : ℚ) : Vec2 := ⟨c, c⟩

/-- Squared length of a 2-vector. -/
def Vec2.normSq (a : Vec2) : ℚ := a.x * a.x + a.y * a.y

/-- `Vec2::perp` of glam: counterclockwise perpendicular, `(-y, x)`. -/
def Vec2.perp (a : Vec2) : Vec2 := ⟨-a.y, a.x⟩

/-- A 3-vector of rationals, the 3d `Vector` type of the source. -/
structure Vec3 where
  x : ℚ
  y : ℚ
  z : ℚ
deriving DecidableEq

instance : Add Vec3 := ⟨fun a b => ⟨a.x + b.x, a.y + b.y, a.z + b.z⟩⟩

instance : Sub Vec3 := ⟨fun a b => ⟨a.x - b.x, a.y - b.y, a.z - b.z⟩⟩

instance : HMul Vec3 ℚ Vec3 := ⟨fun a c => ⟨a.x * c, a.y * c, a.z * c⟩⟩

instance : HMul ℚ Vec3 Vec3 := ⟨fun c a => ⟨c * a.x, c * a.y, c * a.z⟩⟩

instance : HDiv Vec3 ℚ Vec3 := ⟨fun a c => ⟨a.x / c, a.y / c, a.z / c⟩⟩

/-- The zero 3-vector, `Vector::ZERO`. -/
def Vec3.zero : Vec3 := ⟨0, 0, 0⟩

/-- `Vector::splat`: all components set to the same scalar. -/
def Vec3.splat (c : ℚ) : Vec3 := ⟨c, c, c⟩

/-- Squared length of a 3-vector. -/
def Vec3.normSq (a : Vec3) : ℚ := a.x * a.x + a.y * a.y + a.z * a.z

/-- Cross product of 3-vectors. -/
def Vec3.cross (a b : Vec3) : Vec3 :=
  ⟨a.y * b.z - a.z * b.y, a.z * b.x - a.x * b.z, a.x * b.y - a.y * b.x⟩

/-- Componentwise product of 3-vectors (used for applying a scale). -/
def Vec3.compMul (a b : Vec3) : Vec3 := ⟨a.x * b.x, a.y * b.y, a.z * b.z⟩

/-- A 3x3 matrix of rationals, the `Matrix3` type of the source. Row i,
column j is field eij. -/
structure Mat3 where
  e00 : ℚ
  e01 : ℚ
  e02 : ℚ
  e10 : ℚ
  e11 : ℚ
  e12 : ℚ
  e20 : ℚ
  e21 : ℚ
  e22 : ℚ
deriving DecidableEq

instance : Add Mat3 :=
  ⟨fun a b =>
    ⟨a.e00 + b.e00, a.e01 + b.e01, a.e02 + b.e02,
     a.e10 + b.e10, a.e11 + b.e11, a.e12 + b.e12,
     a.e20 + b.e20, a.e21 + b.e21, a.e22 + b.e22⟩⟩

instance : Sub Mat3 :=
  ⟨fun a b =>
    ⟨a.e00 - b.e00, a.e01 - b.e01, a.e02 - b.e02,
     a.e10 - b.e10, a.e11 - b.e11, a.e12 - b.e12,
     a.e20 - b.e20, a.e21 - b.e21, a.e22 - b.e22⟩⟩

instance : HMul ℚ Mat3 Mat3 :=
  ⟨fun c a =>
    ⟨c * a.e00, c * a.e01, c * a.e02,
     c * a.e10, c * a.e11, c * a.e12,
     c * a.e20, c * a.e21, c * a.e22⟩⟩

/-- Matrix product, used to rotate an inertia tensor into world space. -/
instance : Mul Mat3 :=
  ⟨fun a b =>
    ⟨a.e00 * b.e00 + a.e01 * b.e10 + a.e02 * b.e20,
     a.e00 * b.e01 + a.e01 * b.e11 + a.e02 * b.e21,
     a.e00 * b.e02 + a.e01 * b.e12 + a.e02 * b.e22,
     a.e10 * b.e00 + a.e11 * b.e10 + a.e12 * b.e20,
     a.e10 * b.e01 + a.e11 * b.e11 + a.e12 * b.e21,
     a.e10 * b.e02 + a.e11 * b.e12 + a.e12 * b.e22,
     a.e20 * b.e00 + a.e21 * b.e10 + a.e22 * b.e20,
     a.e20 * b.e01 + a.e21 * b.e11 + a.e22 * b.e21,
     a.e20 * b.e02 + a.e21 * b.e12 + a.e22 * b.e22⟩⟩

/-- The zero matrix, `Matrix3::ZERO`. -/
def Mat3.zero : Mat3 := ⟨0, 0, 0, 0, 0, 0, 0, 0, 0⟩

/-- The identity matrix, `Matrix3::IDENTITY`. -/
def Mat3.id : Mat3 := ⟨1, 0, 0, 0, 1, 0, 0, 0, 1⟩

/-- Transpose. -/
def Mat3.transpose (a : Mat3) : Mat3 :=
  ⟨a.e00, a.e10, a.e20, a.e01, a.e11, a.e21, a.e02, a.e12, a.e22⟩

/-- Outer product d (x) d of two 3-vectors. -/
def Mat3.outer (a b : Vec3) : Mat3 :=
  ⟨a.x * b.x, a.x * b.y, a.x * b.z,
   a.y * b.x, a.y * b.y, a.y * b.z,
   a.z * b.x, a.z * b.y, a.z * b.z⟩

/-- Determinant, used for the cached inverse of a 3d inertia tensor. -/
def Mat3.det (a : Mat3) : ℚ :=
  a.e00 * (a.e11 * a.e22 - a.e12 * a.e21)
    - a.e01 * (a.e10 * a.e22 - a.e12 * a.e20)
    + a.e02 * (a.e10 * a.e21 - a.e11 * a.e20)

/-- Adjugate matrix (transpose of the cofactor matrix). -/
def Mat3.adjugate (a : Mat3) : Mat3 :=
  ⟨a.e11 * a.e22 - a.e12 * a.e21,
   a.e02 * a.e21 - a.e01 * a.e22,
   a.e01 * a.e12 - a.e02 * a.e11,
   a.e12 * a.e20 - a.e10 * a.e22,
   a.e00 * a.e22 - a.e02 * a.e20,
   a.e02 * a.e10 - a.e00 * a.e12,
   a.e10 * a.e21 - a.e11 * a.e20,
   a.e01 * a.e20 - a.e00 * a.e21,
   a.e00 * a.e11 - a.e01 * a.e10⟩

/-- Matrix inverse via the adjugate. A singular matrix maps to the zero
matrix, since the rational inverse of zero is zero; this matches the
zero-means-infinite convention of the cached inverses. -/
def Mat3.inv (a : Mat3) : Mat3 := (a.det)⁻¹ * a.adjugate

/-- A quaternion of rationals, the `Quaternion` type of the 3d source. -/
structure Quat where
  w : ℚ
  x : ℚ
  y : ℚ
  z : ℚ
deriving DecidableEq

/-- Hamilton product of quaternions. -/
instance : Mul Quat :=
  ⟨fun a b =>
    ⟨a.w * b.w - a.x * b.x - a.y * b.y - a.z * b.z,
     a.w * b.x + a.x * b.w + a.y * b.z - a.z * b.y,
     a.w * b.y - a.x * b.z + a.y * b.w + a.z * b.x,
     a.w * b.z + a.x * b.y - a.y * b.x + a.z * b.w⟩⟩

/-- The identity quaternion, the default rotation. -/
def Quat.one : Quat := ⟨1, 0, 0, 0⟩

/-- Quaternion conjugate. -/
def Quat.conj (q : Quat) : Quat := ⟨q.w, -q.x, -q.y, -q.z⟩

/-- Squared norm of a quaternion. -/
def Quat.normSq (q : Quat) : ℚ := q.w * q.w + q.x * q.x + q.y * q.y + q.z * q.z

/-- Quaternion inverse: the conjugate scaled by the reciprocal squared norm.
For the unit quaternions used as rotations this is the conjugate. -/
def Quat.inverse (q : Quat) : Quat :=
  ⟨q.w / q.normSq, -q.x / q.normSq, -q.y / q.normSq, -q.z / q.normSq⟩

/-- Embed a 3-vector as a pure quaternion. -/
def Quat.ofVec (v : Vec3) : Quat := ⟨0, v.x, v.y, v.z⟩

/-- The vector part of a quaternion. -/
def Quat.vec (q : Quat) : Vec3 := ⟨q.x, q.y, q.z⟩

/-- Rotate a 3-vector by a quaternion: the vector part of q v q⁻¹. -/
def Quat.rotateVec (q : Quat) (v : Vec3) : Vec3 :=
  ((q * Quat.ofVec v) * q.inverse).vec

/-- Unrotate a 3-vector by a quaternion: rotate by the inverse rotation. -/
def Quat.unrotateVec (q : Quat) (v : Vec3) : Vec3 :=
  q.inverse.rotateVec v

/-- The rotation matrix of a unit quaternion, used to rotate an inertia
tensor into world space. -/
def Quat.toMat3 (q : Quat) : Mat3 :=
  ⟨1 - 2 * (q.y * q.y + q.z * q.z), 2 * (q.x * q.y - q.w * q.z),
     2 * (q.x * q.z + q.w * q.y),
   2 * (q.x * q.y + q.w * q.z), 1 - 2 * (q.x * q.x + q.z * q.z),
     2 * (q.y * q.z - q.w * q.x),
   2 * (q.x * q.z - q.w * q.y), 2 * (q.y * q.z + q.w * q.x),
     1 - 2 * (q.x * q.x + q.y * q.y)⟩

/-- `Scalar::EPSILON` of the default (f32) scalar type: 2⁻²³. -/
def scalarEpsilon : ℚ := 1 / 2 ^ 23

/-- Modelled from the spec: the `Mass` component type is not under src/.
A mass value plus its cached inverse, with invariant: inverse = 1/value when
value > 0, else 0 (zero inverse means infinite mass). -/
structure Mass where
  value : ℚ
  inverse : ℚ
deriving DecidableEq

/-- Modelled from the spec: `Mass::set` overwrites the value and maintains
the cached-inverse invariant. -/
def Mass.set (v : ℚ) : Mass := ⟨v, if 0 < v then v⁻¹ else 0⟩

/-- Modelled from the spec: the 2d `AngularInertia` component type is not
under src/. A scalar angular inertia plus its cached inverse, with the same
zero-means-infinite convention as `Mass`. -/
structure AngularInertia2 where
  value : ℚ
  inverse : ℚ
deriving DecidableEq

/-- Modelled from the spec: 2d `AngularInertia::set`. -/
def AngularInertia2.set (v : ℚ) : AngularInertia2 := ⟨v, if 0 < v then v⁻¹ else 0⟩

/-- Modelled from the spec: 2d `AngularInertia::shifted`, the parallel-axis
theorem for a scalar inertia: I + m * normSq d. -/
def AngularInertia2.shifted (a : AngularInertia2) (m : ℚ) (d : Vec2) : ℚ :=
  a.value + m * d.normSq

/-- Modelled from the spec: the 3d `AngularInertia` component type is not
under src/. A 3x3 inertia tensor plus its cached inverse tensor. -/
structure AngularInertia3 where
  value : Mat3
  inverse : Mat3
deriving DecidableEq

/-- Modelled from the spec: 3d `AngularInertia::set` overwrites the tensor
and maintains the cached inverse. -/
def AngularInertia3.set (v : Mat3) : AngularInertia3 := ⟨v, v.inv⟩

/-- Modelled from the spec: 3d `AngularInertia::shifted`, the parallel-axis
theorem for a tensor: I + m * (normSq d * Identity - outer d d). -/
def AngularInertia3.shifted (a : AngularInertia3) (m : ℚ) (d : Vec3) : Mat3 :=
  a.value + m * (d.normSq * Mat3.id - Mat3.outer d d)

/-- Modelled from the spec: 3d `AngularInertia::rotated_inverse`, the cached
inverse tensor rotated into world space, R * I⁻¹ * Rᵗ. -/
def AngularInertia3.rotatedInverse (a : AngularInertia3) (q : Quat) : Mat3 :=
  q.toMat3 * a.inverse * (q.toMat3).transpose

/-- The data of a 2d `MassPropertiesQueryItem` and likewise of a 2d
`ColliderMassProperties` contribution: mass, angular inertia and center of
mass, the three fields of `MassPropertiesQuery`. -/
structure MassProps2 where
  mass : Mass
  angularInertia : AngularInertia2
  centerOfMass : Vec2
deriving DecidableEq

/-- The data of a 3d `MassPropertiesQueryItem` and likewise of a 3d
`ColliderMassProperties` contribution. -/
structure MassProps3 where
  mass : Mass
  angularInertia : AngularInertia3
  centerOfMass : Vec3
deriving DecidableEq

/-- `AddAssign<ColliderMassProperties>::add_assign` of world_query.rs in the
2d configuration: combine a collider contribution into an aggregate. -/
def MassProps2.addAssign (self rhs : MassProps2) : MassProps2 :=
  let mass1 := self.mass.value
  let mass2 := rhs.mass.value
  let newMass := mass1 + mass2
  if newMass ≤ 0 then self
  else
    let com1 := self.centerOfMass
    let com2 := rhs.centerOfMass
    let newCom := (com1 * mass1 + com2 * mass2) / newMass
    let i1 := self.angularInertia.shifted mass1 (newCom - com1)
    let i2 := rhs.angularInertia.shifted mass2 (newCom - com2)
    let newInertia := i1 + i2
    { mass := Mass.set newMass
      angularInertia := AngularInertia2.set newInertia
      centerOfMass := newCom }

/-- `SubAssign<ColliderMassProperties>::sub_assign` of world_query.rs in the
2d configuration: remove a collider contribution from an aggregate. -/
def MassProps2.subAssign (self rhs : MassProps2) : MassProps2 :=
  let mass1 := self.mass.value
  let mass2 := rhs.mass.value
  if mass1 + mass2 ≤ 0 then self
  else
    let newMass := max (mass1 - mass2) 0
    let com1 := self.centerOfMass
    let com2 := rhs.centerOfMass
    let newCom :=
      if scalarEpsilon < newMass then (com1 * mass1 - com2 * mass2) / newMass
      else com1
    let i1 := self.angularInertia.shifted mass1 (newCom - com1)
    let i2 := rhs.angularInertia.shifted mass2 (newCom - com2)
    let newInertia := i1 - i2
    { mass := Mass.set newMass
      angularInertia := AngularInertia2.set newInertia
      centerOfMass := newCom }

/-- `AddAssign<ColliderMassProperties>::add_assign` of world_query.rs in the
3d configuration. -/
def MassProps3.addAssign (self rhs : MassProps3) : MassProps3 :=
  let mass1 := self.mass.value
  let mass2 := rhs.mass.value
  let newMass := mass1 + mass2
  if newMass ≤ 0 then self
  else
    let com1 := self.centerOfMass
    let com2 := rhs.centerOfMass
    let newCom := (com1 * mass1 + com2 * mass2) / newMass
    let i1 := self.angularInertia.shifted mass1 (newCom - com1)
    let i2 := rhs.angularInertia.shifted mass2 (newCom - com2)
    let newInertia := i1 + i2
    { mass := Mass.set newMass
      angularInertia := AngularInertia3.set newInertia
      centerOfMass := newCom }

/-- `SubAssign<ColliderMassProperties>::sub_assign` of world_query.rs in the
3d configuration. -/
def MassProps3.subAssign (self rhs : MassProps3) : MassProps3 :=
  let mass1 := self.mass.value
  let mass2 := rhs.mass.value
  if mass1 + mass2 ≤ 0 then self
  else
    let newMass := max (mass1 - mass2) 0
    let com1 := self.centerOfMass
    let com2 := rhs.centerOfMass
    let newCom :=
      if scalarEpsilon < newMass then (com1 * mass1 - com2 * mass2) / newMass
      else com1
    let i1 := self.angularInertia.shifted mass1 (newCom - com1)
    let i2 := rhs.angularInertia.shifted mass2 (newCom - com2)
    let newInertia := i1 - i2
    { mass := Mass.set newMass
      angularInertia := AngularInertia3.set newInertia
      centerOfMass := newCom }

/-- The `RigidBody` component: the body kind. -/
inductive RigidBody where
  | Dynamic
  | Kinematic
  | Static
deriving DecidableEq

/-- `RigidBody::is_dynamic`. -/
def RigidBody.isDynamic : RigidBody → Bool
  | .Dynamic => true
  | _ => false

/-- Modelled from the spec: the 2d `LockedAxes` component is not under src/.
A bitmask freezing translation axes and the rotation axis. -/
structure LockedAxes2 where
  txLocked : Bool
  tyLocked : Bool
  rotLocked : Bool
deriving DecidableEq

/-- Modelled from the spec: 2d `LockedAxes::apply_to_vec` zeroes any locked
translation axis of a vector. -/
def LockedAxes2.applyToVec (la : LockedAxes2) (v : Vec2) : Vec2 :=
  ⟨if la.txLocked then 0 else v.x, if la.tyLocked then 0 else v.y⟩

/-- Modelled from the spec: 2d `LockedAxes::apply_to_rotation` zeroes the
scalar inverse inertia when the rotation axis is locked. -/
def LockedAxes2.applyToRotation (la : LockedAxes2) (i : ℚ) : ℚ :=
  if la.rotLocked then 0 else i

/-- Modelled from the spec: the 3d `LockedAxes` component is not under src/. -/
structure LockedAxes3 where
  txLocked : Bool
  tyLocked : Bool
  tzLocked : Bool
  rxLocked : Bool
  ryLocked : Bool
  rzLocked : Bool
deriving DecidableEq

/-- Modelled from the spec: 3d `LockedAxes::apply_to_vec`. -/
def LockedAxes3.applyToVec (la : LockedAxes3) (v : Vec3) : Vec3 :=
  ⟨if la.txLocked then 0 else v.x,
   if la.tyLocked then 0 else v.y,
   if la.tzLocked then 0 else v.z⟩

/-- Modelled from the spec: 3d `LockedAxes::apply_to_rotation` projects the
inverse inertia tensor to zero on any locked rotational axis, zeroing the
row and column of each locked axis. -/
def LockedAxes3.applyToRotation (la : LockedAxes3) (i : Mat3) : Mat3 :=
  let rowMask : Fin 3 → Bool := fun k =>
    match k with
    | 0 => la.rxLocked
    | 1 => la.ryLocked
    | 2 => la.rzLocked
  let keep : Fin 3 → Fin 3 → ℚ → ℚ := fun r c v =>
    if rowMask r || rowMask c then 0 else v
  ⟨keep 0 0 i.e00, keep 0 1 i.e01, keep 0 2 i.e02,
   keep 1 0 i.e10, keep 1 1 i.e11, keep 1 2 i.e12,
   keep 2 0 i.e20, keep 2 1 i.e21, keep 2 2 i.e22⟩

/-- The fields of a 2d `RigidBodyQueryItem` read by the operations verified
here. Remaining query fields (entity id, sleeping markers, friction,
accumulated translation, pre-solve velocities) are not read by them. -/
structure RigidBodyRec2 where
  rb : RigidBody
  linearVelocity : Vec2
  angularVelocity : ℚ
  mass : Mass
  angularInertia : AngularInertia2
  centerOfMass : Vec2
  lockedAxes : Option LockedAxes2
  dominanceComp : Option ℤ
deriving DecidableEq

/-- The fields of a 3d `RigidBodyQueryItem` read by the operations verified
here. -/
structure RigidBodyRec3 where
  rb : RigidBody
  rotation : Quat
  linearVelocity : Vec3
  angularVelocity : Vec3
  mass : Mass
  angularInertia : AngularInertia3
  centerOfMass : Vec3
  lockedAxes : Option LockedAxes3
  dominanceComp : Option ℤ
deriving DecidableEq

/-- `RigidBodyQueryItem::velocity_at_point` in the 2d configuration:
linear velocity plus angular velocity times the perpendicular of the point. -/
def RigidBodyRec2.velocityAtPoint (self : RigidBodyRec2) (point : Vec2) : Vec2 :=
  self.linearVelocity + self.angularVelocity * point.perp

/-- `RigidBodyQueryItem::velocity_at_point` in the 3d configuration:
linear velocity plus the cross product of angular velocity and the point. -/
def RigidBodyRec3.velocityAtPoint (self : RigidBodyRec3) (point : Vec3) : Vec3 :=
  self.linearVelocity + self.angularVelocity.cross point

/-- `RigidBodyQueryItem::effective_inv_mass` in the 2d configuration. -/
def RigidBodyRec2.effectiveInvMass (self : RigidBodyRec2) : Vec2 :=
  if !self.rb.isDynamic then Vec2.zero
  else
    let invMass := Vec2.splat self.mass.inverse
    match self.lockedAxes with
    | some lockedAxes => lockedAxes.applyToVec invMass
    | none => invMass

/-- `RigidBodyQueryItem::effective_inv_mass` in the 3d configuration. -/
def RigidBodyRec3.effectiveInvMass (self : RigidBodyRec3) : Vec3 :=
  if !self.rb.isDynamic then Vec3.zero
  else
    let invMass := Vec3.splat self.mass.inverse
    match self.lockedAxes with
    | some lockedAxes => lockedAxes.applyToVec invMass
    | none => invMass

/-- `RigidBodyQueryItem::effective_world_inv_inertia` in the 2d
configuration. -/
def RigidBodyRec2.effectiveWorldInvInertia (self : RigidBodyRec2) : ℚ :=
  if !self.rb.isDynamic then 0
  else
    let invInertia := self.angularInertia.inverse
    match self.lockedAxes with
    | some lockedAxes => lockedAxes.applyToRotation invInertia
    | none => invInertia

/-- `RigidBodyQueryItem::effective_world_inv_inertia` in the 3d
configuration. -/
def RigidBodyRec3.effectiveWorldInvInertia (self : RigidBodyRec3) : Mat3 :=
  if !self.rb.isDynamic then Mat3.zero
  else
    let invInertia := self.angularInertia.rotatedInverse self.rotation
    match self.lockedAxes with
    | some lockedAxes => lockedAxes.applyToRotation invInertia
    | none => invInertia

/-- `RigidBodyQueryItem::dominance` in the 2d configuration: i8::MAX = 127
for non-dynamic bodies, else the configured value or the default 0. -/
def RigidBodyRec2.dominance (self : RigidBodyRec2) : ℤ :=
  if !self.rb.isDynamic then 127
  else
    match self.dominanceComp with
    | some d => d
    | none => 0

/-- `RigidBodyQueryItem::dominance` in the 3d configuration. -/
def RigidBodyRec3.dominance (self : RigidBodyRec3) : ℤ :=
  if !self.rb.isDynamic then 127
  else
    match self.dominanceComp with
    | some d => d
    | none => 0

/-- The `PrepareConfig` resource of prepare.rs: the two synchronization
switches. -/
structure PrepareConfig where
  positionToTransform : Bool
  transformToPosition : Bool
deriving DecidableEq

/-- Modelled from the spec: a resolved absolute scene transform
(translation + rotation + scale), the `GlobalTransform` read from a parent
or from the entity itself. -/
structure GlobalTransformQ where
  translation : Vec3
  rotation : Quat
  scale : Vec3
deriving DecidableEq

/-- Modelled from the spec: applying an absolute scene transform to a local
point: scale, then rotate, then translate. -/
def GlobalTransformQ.transformPoint (t : GlobalTransformQ) (p : Vec3) : Vec3 :=
  t.translation + t.rotation.rotateVec (t.scale.compMul p)

/-- The local scene `Transform` component: translation, rotation and scale
relative to the parent. -/
structure TransformQ where
  translation : Vec3
  rotation : Quat
  scale : Vec3
deriving DecidableEq

/-- The per-entity data read and written by `init_transforms` in the 3d
configuration: the query row of one newly created rigid body. The parent
field is `none` when the entity has no parent, and `some none` when it has a
parent whose absolute transform lookup fails. -/
structure EntityState where
  transform : TransformQ
  globalTransform : GlobalTransformQ
  position : Vec3
  rotation : Quat
  previousRotation : Option Quat
  parent : Option (Option GlobalTransformQ)
deriving DecidableEq

/-- The body of `init_transforms` of prepare.rs for one queried entity, in
the 3d configuration. Mirrors the source: an early return when both
switches are disabled; otherwise the transform_to_position branch, or else
the position_to_transform branch; finally the PreviousRotation update. -/
def initTransformsEntity (config : PrepareConfig) (s : EntityState) : EntityState :=
  if !config.positionToTransform && !config.transformToPosition then s
  else
    let parentTransform : Option GlobalTransformQ := s.parent.bind id
    let s1 :=
      if config.transformToPosition then
        if s.parent.isSome then
          let newPos :=
            match parentTransform with
            | some t => t.transformPoint s.transform.translation
            | none => s.position
          let parentRot :=
            match parentTransform with
            | some t => t.rotation
            | none => Quat.one
          { s with position := newPos, rotation := parentRot * s.transform.rotation }
        else
          { s with
              position := s.globalTransform.translation
              rotation := s.globalTransform.rotation }
      else
        if config.positionToTransform then
          let newTranslation := s.position
          let newRotation := s.rotation
          let pair :=
            match parentTransform with
            | some t => (newTranslation - t.translation, newRotation * t.rotation.inverse)
            | none => (newTranslation, newRotation)
          { s with
              transform :=
                { s.transform with translation := pair.1, rotation := pair.2 } }
        else s
    match s1.previousRotation with
    | some _ => { s1 with previousRotation := some s1.rotation }
    | none => s1

/-- The `Restitution` component: a coefficient of restitution. -/
structure Restitution where
  coefficient : ℚ
deriving DecidableEq

/-- The body of `clamp_restitution` of prepare.rs for one queried entity:
clamp the coefficient between 0 and 1, with the clamp semantics of Rust. -/
def clampRestitution (r : Restitution) : Restitution :=
  ⟨if r.coefficient < 0 then 0 else if 1 < r.coefficient then 1 else r.coefficient⟩

/-! Unfolding lemmas for the componentwise vector, matrix and quaternion
operations, so that concrete instances evaluate. -/

@[simp]
theorem Vec2.add2_def (a b : Vec2) : a + b = ⟨a.x + b.x, a.y + b.y⟩ := rfl

@[simp]
theorem Vec2.sub2_def (a b : Vec2) : a - b = ⟨a.x - b.x, a.y - b.y⟩ := rfl

@[simp]
theorem Vec2.mulScalar2_def (a : Vec2) (c : ℚ) : a * c = ⟨a.x * c, a.y * c⟩ := rfl

@[simp]
theorem Vec2.scalarMul2_def (c : ℚ) (a : Vec2) : c * a = ⟨c * a.x, c * a.y⟩ := rfl

@[simp]
theorem Vec2.divScalar2_def (a : Vec2) (c : ℚ) : a / c = ⟨a.x / c, a.y / c⟩ := rfl

@[simp]
theorem Vec3.add3_def (a b : Vec3) : a + b = ⟨a.x + b.x, a.y + b.y, a.z + b.z⟩ := rfl

@[simp]
theorem Vec3.sub3_def (a b : Vec3) : a - b = ⟨a.x - b.x, a.y - b.y, a.z - b.z⟩ := rfl

@[simp]
theorem Vec3.mulScalar3_def (a : Vec3) (c : ℚ) :
    a * c = ⟨a.x * c, a.y * c, a.z * c⟩ := rfl

@[simp]
theorem Vec3.scalarMul3_def (c : ℚ) (a : Vec3) :
    c * a = ⟨c * a.x, c * a.y, c * a.z⟩ := rfl

@[simp]
theorem Vec3.divScalar3_def (a : Vec3) (c : ℚ) :
    a / c = ⟨a.x / c, a.y / c, a.z / c⟩ := rfl

@[simp]
theorem Mat3.addM_def (a b : Mat3) :
    a + b =
      ⟨a.e00 + b.e00, a.e01 + b.e01, a.e02 + b.e02,
       a.e10 + b.e10, a.e11 + b.e11, a.e12 + b.e12,
       a.e20 + b.e20, a.e21 + b.e21, a.e22 + b.e22⟩ := rfl

@[simp]
theorem Mat3.subM_def (a b : Mat3) :
    a - b =
      ⟨a.e00 - b.e00, a.e01 - b.e01, a.e02 - b.e02,
       a.e10 - b.e10, a.e11 - b.e11, a.e12 - b.e12,
       a.e20 - b.e20, a.e21 - b.e21, a.e22 - b.e22⟩ := rfl

@[simp]
theorem Mat3.smulM_def (c : ℚ) (a : Mat3) :
    c * a =
      ⟨c * a.e00, c * a.e01, c * a.e02,
       c * a.e10, c * a.e11, c * a.e12,
       c * a.e20, c * a.e21, c * a.e22⟩ := rfl

@[simp]
theorem Mat3.mulM_def (a b : Mat3) :
    a * b =
      ⟨a.e00 * b.e00 + a.e01 * b.e10 + a.e02 * b.e20,
       a.e00 * b.e01 + a.e01 * b.e11 + a.e02 * b.e21,
       a.e00 * b.e02 + a.e01 * b.e12 + a.e02 * b.e22,
       a.e10 * b.e00 + a.e11 * b.e10 + a.e12 * b.e20,
       a.e10 * b.e01 + a.e11 * b.e11 + a.e12 * b.e21,
       a.e10 * b.e02 + a.e11 * b.e12 + a.e12 * b.e22,
       a.e20 * b.e00 + a.e21 * b.e10 + a.e22 * b.e20,
       a.e20 * b.e01 + a.e21 * b.e11 + a.e22 * b.e21,
       a.e20 * b.e02 + a.e21 * b.e12 + a.e22 * b.e22⟩ := rfl

@[simp]
theorem Quat.mulQ_def (a b : Quat) :
    a * b =
      ⟨a.w * b.w - a.x * b.x - a.y * b.y - a.z * b.z,
       a.w * b.x + a.x * b.w + a.y * b.z - a.z * b.y,
       a.w * b.y - a.x * b.z + a.y * b.w + a.z * b.x,
       a.w * b.z + a.x * b.y - a.y * b.x + a.z * b.w⟩ := rfl

/-- C4: for every body whose kind is Kinematic or Static, for every locked
axes bitmask and every dominance configuration, the effective inverse mass
is the exact zero vector, the effective inverse inertia is exactly zero
(2d scalar, or 3d zero tensor), and dominance is the maximum representable
priority value i8::MAX = 127. -/
theorem nondynamic_effective_props
    (b2 : RigidBodyRec2) (b3 : RigidBodyRec3)
    (h2 : b2.rb = RigidBody.Kinematic ∨ b2.rb = RigidBody.Static)
    (h3 : b3.rb = RigidBody.Kinematic ∨ b3.rb = RigidBody.Static) :
    b2.effectiveInvMass = Vec2.zero ∧
    b2.effectiveWorldInvInertia = 0 ∧
    b2.dominance = 127 ∧
    b3.effectiveInvMass = Vec3.zero ∧
    b3.effectiveWorldInvInertia = Mat3.zero ∧
    b3.dominance = 127 := by
  have hd2 : b2.rb.isDynamic = false := by
    rcases h2 with h | h <;> simp [h, RigidBody.isDynamic]
  have hd3 : b3.rb.isDynamic = false := by
    rcases h3 with h | h <;> simp [h, RigidBody.isDynamic]
  simp [RigidBodyRec2.effectiveInvMass, RigidBodyRec2.effectiveWorldInvInertia,
    RigidBodyRec2.dominance, RigidBodyRec3.effectiveInvMass,
    RigidBodyRec3.effectiveWorldInvInertia, RigidBodyRec3.dominance, hd2, hd3]

/-- Witness for C4 at a concrete kinematic 2d body and static 3d body, each
with locked axes and a dominance override set. -/
theorem nondynamic_effective_props_witness :
    (RigidBodyRec2.mk RigidBody.Kinematic ⟨1, 2⟩ 3 ⟨5, 1/5⟩ ⟨7, 1/7⟩ ⟨1, 1⟩
        (some ⟨true, false, true⟩) (some 5)).effectiveInvMass = Vec2.zero ∧
    (RigidBodyRec2.mk RigidBody.Kinematic ⟨1, 2⟩ 3 ⟨5, 1/5⟩ ⟨7, 1/7⟩ ⟨1, 1⟩
        (some ⟨true, false, true⟩) (some 5)).effectiveWorldInvInertia = 0 ∧
    (RigidBodyRec2.mk RigidBody.Kinematic ⟨1, 2⟩ 3 ⟨5, 1/5⟩ ⟨7, 1/7⟩ ⟨1, 1⟩
        (some ⟨true, false, true⟩) (some 5)).dominance = 127 ∧
    (RigidBodyRec3.mk RigidBody.Static ⟨1, 0, 0, 0⟩ ⟨1, 2, 3⟩ ⟨4, 5, 6⟩ ⟨5, 1/5⟩
        ⟨Mat3.id, Mat3.id⟩ ⟨1, 1, 1⟩ (some ⟨true, false, true, false, true, false⟩)
        (some (-3))).effectiveInvMass = Vec3.zero ∧
    (RigidBodyRec3.mk RigidBody.Static ⟨1, 0, 0, 0⟩ ⟨1, 2, 3⟩ ⟨4, 5, 6⟩ ⟨5, 1/5⟩
        ⟨Mat3.id, Mat3.id⟩ ⟨1, 1, 1⟩ (some ⟨true, false, true, false, true, false⟩)
        (some (-3))).effectiveWorldInvInertia = Mat3.zero ∧
    (RigidBodyRec3.mk RigidBody.Static ⟨1, 0, 0, 0⟩ ⟨1, 2, 3⟩ ⟨4, 5, 6⟩ ⟨5, 1/5⟩
        ⟨Mat3.id, Mat3.id⟩ ⟨1, 1, 1⟩ (some ⟨true, false, true, false, true, false⟩)
        (some (-3))).dominance = 127 :=
  nondynamic_effective_props _ _ (Or.inl rfl) (Or.inr rfl)

/-- C7: the restitution finalizer clamps any authored coefficient into the
interval between 0 and 1, leaves a coefficient already inside that interval
unchanged, and is idempotent. -/
theorem clamp_restitution_spec (r : Restitution) :
    (0 ≤ (clampRestitution r).coefficient ∧ (clampRestitution r).coefficient ≤ 1) ∧
    (0 ≤ r.coefficient → r.coefficient ≤ 1 → clampRestitution r = r) ∧
    clampRestitution (clampRestitution r) = clampRestitution r := by
  obtain ⟨c⟩ := r
  by_cases h1 : c < 0
  · simp only [clampRestitution, if_pos h1]
    refine ⟨⟨le_refl 0, by norm_num⟩, ?_, ?_⟩
    · intro h2 _
      exact absurd h1 (not_lt.mpr h2)
    · simp [clampRestitution]
  · by_cases h2 : 1 < c
    · simp only [clampRestitution, if_neg h1, if_pos h2]
      refine ⟨⟨by norm_num, le_refl 1⟩, ?_, ?_⟩
      · intro _ h3
        exact absurd h2 (not_lt.mpr h3)
      · simp [clampRestitution]
    · simp only [clampRestitution, if_neg h1, if_neg h2]
      refine ⟨⟨not_lt.mp h1, not_lt.mp h2⟩, ?_, ?_⟩
      · intro _ _
        trivial
      · simp [clampRestitution, if_neg h1, if_neg h2]

/-- Witness for C7 at the in-range coefficient one half and evaluation of an
out-of-range coefficient. -/
theorem clamp_restitution_spec_witness :
    (0 ≤ (clampRestitution ⟨1/2⟩).coefficient ∧
      (clampRestitution ⟨1/2⟩).coefficient ≤ 1) ∧
    clampRestitution ⟨1/2⟩ = ⟨1/2⟩ ∧
    clampRestitution (clampRestitution ⟨5/2⟩) = clampRestitution ⟨5/2⟩ :=
  ⟨(clamp_restitution_spec ⟨1/2⟩).1,
   (clamp_restitution_spec ⟨1/2⟩).2.1 (by norm_num) (by norm_num),
   (clamp_restitution_spec ⟨5/2⟩).2.2⟩

/-- C8: the velocity of a body at a point expressed relative to the center
of mass is, componentwise, the linear velocity plus the angular velocity
times the perpendicular of the point in 2d, and the linear velocity plus the
cross product of the angular velocity with the point in 3d. -/
theorem velocity_at_point_spec
    (b2 : RigidBodyRec2) (p2 : Vec2) (b3 : RigidBodyRec3) (p3 : Vec3) :
    b2.velocityAtPoint p2 =
      ⟨b2.linearVelocity.x + b2.angularVelocity * (-p2.y),
       b2.linearVelocity.y + b2.angularVelocity * p2.x⟩ ∧
    b3.velocityAtPoint p3 =
      ⟨b3.linearVelocity.x +
          (b3.angularVelocity.y * p3.z - b3.angularVelocity.z * p3.y),
       b3.linearVelocity.y +
          (b3.angularVelocity.z * p3.x - b3.angularVelocity.x * p3.z),
       b3.linearVelocity.z +
          (b3.angularVelocity.x * p3.y - b3.angularVelocity.y * p3.x)⟩ := by
  constructor <;>
    simp [RigidBodyRec2.velocityAtPoint, RigidBodyRec3.velocityAtPoint,
      Vec2.perp, Vec3.cross]

/-- C1: combine is a silent no-op when the total mass is non-positive;
otherwise it overwrites the aggregate with the combined mass, its
reciprocal, the mass-weighted center of mass, and the sum of the two input
inertias shifted to the new center of mass by the parallel-axis theorem,
with offset d = com - new_com: I + m * normSq d in 2d, and
I + m * (normSq d * Identity - outer d d) in 3d. -/
theorem combine_spec (a2 x2 : MassProps2) (a3 x3 : MassProps3) :
    (a2.mass.value + x2.mass.value ≤ 0 → a2.addAssign x2 = a2) ∧
    (0 < a2.mass.value + x2.mass.value →
      (a2.addAssign x2).mass.value = a2.mass.value + x2.mass.value ∧
      (a2.addAssign x2).mass.inverse = (a2.mass.value + x2.mass.value)⁻¹ ∧
      (a2.addAssign x2).centerOfMass =
        (a2.centerOfMass * a2.mass.value + x2.centerOfMass * x2.mass.value) /
          (a2.mass.value + x2.mass.value) ∧
      (a2.addAssign x2).angularInertia.value =
        (a2.angularInertia.value +
          a2.mass.value *
            (a2.centerOfMass -
              (a2.centerOfMass * a2.mass.value + x2.centerOfMass * x2.mass.value) /
                (a2.mass.value + x2.mass.value)).normSq) +
        (x2.angularInertia.value +
          x2.mass.value *
            (x2.centerOfMass -
              (a2.centerOfMass * a2.mass.value + x2.centerOfMass * x2.mass.value) /
                (a2.mass.value + x2.mass.value)).normSq)) ∧
    (a3.mass.value + x3.mass.value ≤ 0 → a3.addAssign x3 = a3) ∧
    (0 < a3.mass.value + x3.mass.value →
      (a3.addAssign x3).mass.value = a3.mass.value + x3.mass.value ∧
      (a3.addAssign x3).mass.inverse = (a3.mass.value + x3.mass.value)⁻¹ ∧
      (a3.addAssign x3).centerOfMass =
        (a3.centerOfMass * a3.mass.value + x3.centerOfMass * x3.mass.value) /
          (a3.mass.value + x3.mass.value) ∧
      (a3.addAssign x3).angularInertia.value =
        (a3.angularInertia.value +
          a3.mass.value *
            ((a3.centerOfMass -
                (a3.centerOfMass * a3.mass.value + x3.centerOfMass * x3.mass.value) /
                  (a3.mass.value + x3.mass.value)).normSq * Mat3.id -
              Mat3.outer
                (a3.centerOfMass -
                  (a3.centerOfMass * a3.mass.value + x3.centerOfMass * x3.mass.value) /
                    (a3.mass.value + x3.mass.value))
                (a3.centerOfMass -
                  (a3.centerOfMass * a3.mass.value + x3.centerOfMass * x3.mass.value) /
                    (a3.mass.value + x3.mass.value)))) +
        (x3.angularInertia.value +
          x3.mass.value *
            ((x3.centerOfMass -
                (a3.centerOfMass * a3.mass.value + x3.centerOfMass * x3.mass.value) /
                  (a3.mass.value + x3.mass.value)).normSq * Mat3.id -
              Mat3.outer
                (x3.centerOfMass -
                  (a3.centerOfMass * a3.mass.value + x3.centerOfMass * x3.mass.value) /
                    (a3.mass.value + x3.mass.value))
                (x3.centerOfMass -
                  (a3.centerOfMass * a3.mass.value + x3.centerOfMass * x3.mass.value) /
                    (a3.mass.value + x3.mass.value))))) := by
  refine ⟨?_, ?_, ?_, ?_⟩
  · intro h
    simp [MassProps2.addAssign, h]
  · intro h
    have hng : ¬(a2.mass.value + x2.mass.value ≤ 0) := not_le.mpr h
    refine ⟨?_, ?_, ?_, ?_⟩
    · simp [MassProps2.addAssign, hng, Mass.set]
    · simp [MassProps2.addAssign, hng, Mass.set, h]
    · simp [MassProps2.addAssign, hng]
    · simp [MassProps2.addAssign, hng, AngularInertia2.set,
        AngularInertia2.shifted, Vec2.normSq]
      ring
  · intro h
    simp [MassProps3.addAssign, h]
  · intro h
    have hng : ¬(a3.mass.value + x3.mass.value ≤ 0) := not_le.mpr h
    refine ⟨?_, ?_, ?_, ?_⟩
    · simp [MassProps3.addAssign, hng, Mass.set]
    · simp [MassProps3.addAssign, hng, Mass.set, h]
    · simp [MassProps3.addAssign, hng]
    · simp [MassProps3.addAssign, hng, AngularInertia3.set,
        AngularInertia3.shifted, Vec3.normSq, Mat3.outer, Mat3.id]
      repeat' apply And.intro
      all_goals ring

/-- Witness for C1: the degenerate guard at zero masses leaves the aggregate
unchanged, and a combine of two unit masses at distinct centers yields the
evaluated combined mass, inverse, center of mass and inertia. -/
theorem combine_spec_witness :
    ((0:ℚ) + 0 ≤ 0) ∧
    MassProps2.addAssign ⟨⟨0, 0⟩, ⟨0, 0⟩, ⟨0, 0⟩⟩ ⟨⟨0, 0⟩, ⟨0, 0⟩, ⟨0, 0⟩⟩ =
      ⟨⟨0, 0⟩, ⟨0, 0⟩, ⟨0, 0⟩⟩ ∧
    MassProps3.addAssign ⟨⟨0, 0⟩, ⟨Mat3.zero, Mat3.zero⟩, ⟨0, 0, 0⟩⟩
        ⟨⟨0, 0⟩, ⟨Mat3.zero, Mat3.zero⟩, ⟨0, 0, 0⟩⟩ =
      ⟨⟨0, 0⟩, ⟨Mat3.zero, Mat3.zero⟩, ⟨0, 0, 0⟩⟩ ∧
    ((0:ℚ) < 1 + 1) ∧
    (MassProps2.addAssign ⟨⟨1, 1⟩, ⟨0, 0⟩, ⟨0, 0⟩⟩
        ⟨⟨1, 1⟩, ⟨0, 0⟩, ⟨1, 0⟩⟩).mass.value = 2 ∧
    (MassProps2.addAssign ⟨⟨1, 1⟩, ⟨0, 0⟩, ⟨0, 0⟩⟩
        ⟨⟨1, 1⟩, ⟨0, 0⟩, ⟨1, 0⟩⟩).mass.inverse = 1/2 ∧
    (MassProps2.addAssign ⟨⟨1, 1⟩, ⟨0, 0⟩, ⟨0, 0⟩⟩
        ⟨⟨1, 1⟩, ⟨0, 0⟩, ⟨1, 0⟩⟩).centerOfMass = ⟨1/2, 0⟩ ∧
    (MassProps2.addAssign ⟨⟨1, 1⟩, ⟨0, 0⟩, ⟨0, 0⟩⟩
        ⟨⟨1, 1⟩, ⟨0, 0⟩, ⟨1, 0⟩⟩).angularInertia.value = 1/2 ∧
    (MassProps3.addAssign ⟨⟨1, 1⟩, ⟨Mat3.zero, Mat3.zero⟩, ⟨0, 0, 0⟩⟩
        ⟨⟨1, 1⟩, ⟨Mat3.zero, Mat3.zero⟩, ⟨1, 0, 0⟩⟩).mass.value = 2 := by
  have hdeg := combine_spec ⟨⟨0, 0⟩, ⟨0, 0⟩, ⟨0, 0⟩⟩ ⟨⟨0, 0⟩, ⟨0, 0⟩, ⟨0, 0⟩⟩
    ⟨⟨0, 0⟩, ⟨Mat3.zero, Mat3.zero⟩, ⟨0, 0, 0⟩⟩
    ⟨⟨0, 0⟩, ⟨Mat3.zero, Mat3.zero⟩, ⟨0, 0, 0⟩⟩
  have hpos := combine_spec ⟨⟨1, 1⟩, ⟨0, 0⟩, ⟨0, 0⟩⟩ ⟨⟨1, 1⟩, ⟨0, 0⟩, ⟨1, 0⟩⟩
    ⟨⟨1, 1⟩, ⟨Mat3.zero, Mat3.zero⟩, ⟨0, 0, 0⟩⟩
    ⟨⟨1, 1⟩, ⟨Mat3.zero, Mat3.zero⟩, ⟨1, 0, 0⟩⟩
  have h2 := hpos.2.1 (by norm_num)
  have h3 := (hpos.2.2.2 (by norm_num)).1
  refine ⟨by norm_num, hdeg.1 (by norm_num), hdeg.2.2.1 (by norm_num),
    by norm_num, h2.1.trans (by norm_num), h2.2.1.trans (by norm_num),
    h2.2.2.1.trans (by norm_num), ?_, h3.trans (by norm_num)⟩
  refine h2.2.2.2.trans ?_
  norm_num [Vec2.normSq]

/-- C2: remove is a silent no-op when the sum of aggregate and contribution
masses is non-positive; otherwise the new mass is the difference clamped at
zero, the cached inverse follows the zero-means-infinite convention, the new
center of mass is the mass-weighted difference when the new mass exceeds
the epsilon guard and the old center of mass otherwise, and the inertia is
overwritten with the difference of the two input inertias shifted to the
new center of mass by the parallel-axis theorem. -/
theorem remove_spec (a2 x2 : MassProps2) (a3 x3 : MassProps3) :
    (a2.mass.value + x2.mass.value ≤ 0 → a2.subAssign x2 = a2) ∧
    (0 < a2.mass.value + x2.mass.value →
      (a2.subAssign x2).mass.value = max (a2.mass.value - x2.mass.value) 0 ∧
      (0 < a2.mass.value - x2.mass.value →
        (a2.subAssign x2).mass.inverse = (a2.mass.value - x2.mass.value)⁻¹) ∧
      (a2.mass.value - x2.mass.value ≤ 0 → (a2.subAssign x2).mass.inverse = 0) ∧
      (scalarEpsilon < max (a2.mass.value - x2.mass.value) 0 →
        (a2.subAssign x2).centerOfMass =
          (a2.centerOfMass * a2.mass.value - x2.centerOfMass * x2.mass.value) /
            max (a2.mass.value - x2.mass.value) 0) ∧
      (max (a2.mass.value - x2.mass.value) 0 ≤ scalarEpsilon →
        (a2.subAssign x2).centerOfMass = a2.centerOfMass) ∧
      (a2.subAssign x2).angularInertia.value =
        (a2.angularInertia.value +
          a2.mass.value *
            (a2.centerOfMass - (a2.subAssign x2).centerOfMass).normSq) -
        (x2.angularInertia.value +
          x2.mass.value *
            (x2.centerOfMass - (a2.subAssign x2).centerOfMass).normSq)) ∧
    (a3.mass.value + x3.mass.value ≤ 0 → a3.subAssign x3 = a3) ∧
    (0 < a3.mass.value + x3.mass.value →
      (a3.subAssign x3).mass.value = max (a3.mass.value - x3.mass.value) 0 ∧
      (0 < a3.mass.value - x3.mass.value →
        (a3.subAssign x3).mass.inverse = (a3.mass.value - x3.mass.value)⁻¹) ∧
      (a3.mass.value - x3.mass.value ≤ 0 → (a3.subAssign x3).mass.inverse = 0) ∧
      (scalarEpsilon < max (a3.mass.value - x3.mass.value) 0 →
        (a3.subAssign x3).centerOfMass =
          (a3.centerOfMass * a3.mass.value - x3.centerOfMass * x3.mass.value) /
            max (a3.mass.value - x3.mass.value) 0) ∧
      (max (a3.mass.value - x3.mass.value) 0 ≤ scalarEpsilon →
        (a3.subAssign x3).centerOfMass = a3.centerOfMass) ∧
      (a3.subAssign x3).angularInertia.value =
        (a3.angularInertia.value +
          a3.mass.value *
            (((a3.centerOfMass - (a3.subAssign x3).centerOfMass).normSq * Mat3.id) -
              Mat3.outer (a3.centerOfMass - (a3.subAssign x3).centerOfMass)
                (a3.centerOfMass - (a3.subAssign x3).centerOfMass))) -
        (x3.angularInertia.value +
          x3.mass.value *
            (((x3.centerOfMass - (a3.subAssign x3).centerOfMass).normSq * Mat3.id) -
              Mat3.outer (x3.centerOfMass - (a3.subAssign x3).centerOfMass)
                (x3.centerOfMass - (a3.subAssign x3).centerOfMass)))) := by
  refine ⟨?_, ?_, ?_, ?_⟩
  · intro h
    simp [MassProps2.subAssign, h]
  · intro h
    have hng : ¬(a2.mass.value + x2.mass.value ≤ 0) := not_le.mpr h
    refine ⟨?_, ?_, ?_, ?_, ?_, ?_⟩
    · simp [MassProps2.subAssign, hng, Mass.set]
    · intro hpos
      have hmax : max (a2.mass.value - x2.mass.value) 0 = a2.mass.value - x2.mass.value :=
        max_eq_left hpos.le
      simp [MassProps2.subAssign, hng, Mass.set, hmax, hpos]
    · intro hnp
      have hmax : max (a2.mass.value - x2.mass.value) 0 = 0 := max_eq_right hnp
      simp [MassProps2.subAssign, hng, Mass.set, hmax]
    · intro heps
      simp [MassProps2.subAssign, hng, heps]
    · intro heps
      have hne : ¬(scalarEpsilon < max (a2.mass.value - x2.mass.value) 0) :=
        not_lt.mpr heps
      simp [MassProps2.subAssign, hng, hne]
    · by_cases heps : scalarEpsilon < max (a2.mass.value - x2.mass.value) 0 <;>
        simp [MassProps2.subAssign, hng, heps, AngularInertia2.set,
          AngularInertia2.shifted, Vec2.normSq] <;>
        first
          | ring1
          | exact Or.inl (by ring1)
  · intro h
    simp [MassProps3.subAssign, h]
  · intro h
    have hng : ¬(a3.mass.value + x3.mass.value ≤ 0) := not_le.mpr h
    refine ⟨?_, ?_, ?_, ?_, ?_, ?_⟩
    · simp [MassProps3.subAssign, hng, Mass.set]
    · intro hpos
      have hmax : max (a3.mass.value - x3.mass.value) 0 = a3.mass.value - x3.mass.value :=
        max_eq_left hpos.le
      simp [MassProps3.subAssign, hng, Mass.set, hmax, hpos]
    · intro hnp
      have hmax : max (a3.mass.value - x3.mass.value) 0 = 0 := max_eq_right hnp
      simp [MassProps3.subAssign, hng, Mass.set, hmax]
    · intro heps
      simp [MassProps3.subAssign, hng, heps]
    · intro heps
      have hne : ¬(scalarEpsilon < max (a3.mass.value - x3.mass.value) 0) :=
        not_lt.mpr heps
      simp [MassProps3.subAssign, hng, hne]
    · by_cases heps : scalarEpsilon < max (a3.mass.value - x3.mass.value) 0 <;>
        (simp [MassProps3.subAssign, hng, heps, AngularInertia3.set,
          AngularInertia3.shifted, Vec3.normSq, Mat3.outer, Mat3.id];
         repeat' apply And.intro) <;>
        first
          | ring1
          | exact Or.inl (by ring1)

/-- Witness for C2: the degenerate guard at zero masses leaves the aggregate
unchanged, and the worked removal example of the spec (masses 8.1 and 1.6)
evaluates to mass 6.5, inverse 2/13 and the mass-weighted center of mass. -/
theorem remove_spec_witness :
    ((0:ℚ) + 0 ≤ 0) ∧
    MassProps2.subAssign ⟨⟨0, 0⟩, ⟨0, 0⟩, ⟨0, 0⟩⟩ ⟨⟨0, 0⟩, ⟨0, 0⟩, ⟨0, 0⟩⟩ =
      ⟨⟨0, 0⟩, ⟨0, 0⟩, ⟨0, 0⟩⟩ ∧
    MassProps3.subAssign ⟨⟨0, 0⟩, ⟨Mat3.zero, Mat3.zero⟩, ⟨0, 0, 0⟩⟩
        ⟨⟨0, 0⟩, ⟨Mat3.zero, Mat3.zero⟩, ⟨0, 0, 0⟩⟩ =
      ⟨⟨0, 0⟩, ⟨Mat3.zero, Mat3.zero⟩, ⟨0, 0, 0⟩⟩ ∧
    ((0:ℚ) < 81/10 + 8/5) ∧
    (MassProps2.subAssign ⟨⟨81/10, 10/81⟩, ⟨0, 0⟩, ⟨-19/5, 0⟩⟩
        ⟨⟨8/5, 5/8⟩, ⟨0, 0⟩, ⟨6/5, 1⟩⟩).mass.value = 13/2 ∧
    (MassProps2.subAssign ⟨⟨81/10, 10/81⟩, ⟨0, 0⟩, ⟨-19/5, 0⟩⟩
        ⟨⟨8/5, 5/8⟩, ⟨0, 0⟩, ⟨6/5, 1⟩⟩).mass.inverse = 2/13 ∧
    (MassProps2.subAssign ⟨⟨81/10, 10/81⟩, ⟨0, 0⟩, ⟨-19/5, 0⟩⟩
        ⟨⟨8/5, 5/8⟩, ⟨0, 0⟩, ⟨6/5, 1⟩⟩).centerOfMass = ⟨-327/65, -16/65⟩ ∧
    (MassProps3.subAssign ⟨⟨2, 1/2⟩, ⟨Mat3.zero, Mat3.zero⟩, ⟨0, 0, 0⟩⟩
        ⟨⟨1, 1⟩, ⟨Mat3.zero, Mat3.zero⟩, ⟨1, 0, 0⟩⟩).mass.value = 1 := by
  have hdeg := remove_spec ⟨⟨0, 0⟩, ⟨0, 0⟩, ⟨0, 0⟩⟩ ⟨⟨0, 0⟩, ⟨0, 0⟩, ⟨0, 0⟩⟩
    ⟨⟨0, 0⟩, ⟨Mat3.zero, Mat3.zero⟩, ⟨0, 0, 0⟩⟩
    ⟨⟨0, 0⟩, ⟨Mat3.zero, Mat3.zero⟩, ⟨0, 0, 0⟩⟩
  have hpos := remove_spec ⟨⟨81/10, 10/81⟩, ⟨0, 0⟩, ⟨-19/5, 0⟩⟩
    ⟨⟨8/5, 5/8⟩, ⟨0, 0⟩, ⟨6/5, 1⟩⟩
    ⟨⟨2, 1/2⟩, ⟨Mat3.zero, Mat3.zero⟩, ⟨0, 0, 0⟩⟩
    ⟨⟨1, 1⟩, ⟨Mat3.zero, Mat3.zero⟩, ⟨1, 0, 0⟩⟩
  have h2 := hpos.2.1 (by norm_num)
  have h3 := (hpos.2.2.2 (by norm_num)).1
  refine ⟨by norm_num, hdeg.1 (by norm_num), hdeg.2.2.1 (by norm_num),
    by norm_num, h2.1.trans (by norm_num), ?_, ?_, h3.trans (by norm_num)⟩
  · exact (h2.2.1 (by norm_num)).trans (by norm_num)
  · refine (h2.2.2.2.1 (by norm_num [scalarEpsilon])).trans ?_
    norm_num

/-- C9: removing a contribution at least as massive as a positive aggregate
is not a no-op: the mass becomes exactly 0 with the infinite-mass sentinel 0
as cached inverse, the pre-removal center of mass is kept, and the inertia
is still overwritten with the shifted difference, which can be negative. -/
theorem remove_excess_mass (a2 x2 : MassProps2) (a3 x3 : MassProps3)
    (h2a : 0 < a2.mass.value) (h2x : a2.mass.value ≤ x2.mass.value)
    (h3a : 0 < a3.mass.value) (h3x : a3.mass.value ≤ x3.mass.value) :
    (a2.subAssign x2).mass.value = 0 ∧
    (a2.subAssign x2).mass.inverse = 0 ∧
    (a2.subAssign x2).centerOfMass = a2.centerOfMass ∧
    (a2.subAssign x2).angularInertia.value =
      (a2.angularInertia.value +
        a2.mass.value * (a2.centerOfMass - a2.centerOfMass).normSq) -
      (x2.angularInertia.value +
        x2.mass.value * (x2.centerOfMass - a2.centerOfMass).normSq) ∧
    (a2.subAssign x2).mass.value ≠ a2.mass.value ∧
    (a3.subAssign x3).mass.value = 0 ∧
    (a3.subAssign x3).mass.inverse = 0 ∧
    (a3.subAssign x3).centerOfMass = a3.centerOfMass ∧
    (a3.subAssign x3).angularInertia.value =
      (a3.angularInertia.value +
        a3.mass.value *
          (((a3.centerOfMass - a3.centerOfMass).normSq * Mat3.id) -
            Mat3.outer (a3.centerOfMass - a3.centerOfMass)
              (a3.centerOfMass - a3.centerOfMass))) -
      (x3.angularInertia.value +
        x3.mass.value *
          (((x3.centerOfMass - a3.centerOfMass).normSq * Mat3.id) -
            Mat3.outer (x3.centerOfMass - a3.centerOfMass)
              (x3.centerOfMass - a3.centerOfMass))) ∧
    (a3.subAssign x3).mass.value ≠ a3.mass.value ∧
    (∃ b y : MassProps2, 0 < b.mass.value ∧ b.mass.value ≤ y.mass.value ∧
      (b.subAssign y).angularInertia.value < 0) := by
  have hng2 : ¬(a2.mass.value + x2.mass.value ≤ 0) := by
    push_neg
    linarith
  have hng3 : ¬(a3.mass.value + x3.mass.value ≤ 0) := by
    push_neg
    linarith
  have hmax2 : max (a2.mass.value - x2.mass.value) 0 = 0 :=
    max_eq_right (by linarith)
  have hmax3 : max (a3.mass.value - x3.mass.value) 0 = 0 :=
    max_eq_right (by linarith)
  have heps2 : ¬(scalarEpsilon < max (a2.mass.value - x2.mass.value) 0) := by
    rw [hmax2]
    norm_num [scalarEpsilon]
  have heps3 : ¬(scalarEpsilon < max (a3.mass.value - x3.mass.value) 0) := by
    rw [hmax3]
    norm_num [scalarEpsilon]
  refine ⟨?_, ?_, ?_, ?_, ?_, ?_, ?_, ?_, ?_, ?_, ?_⟩
  · simp [MassProps2.subAssign, hng2, hmax2, Mass.set]
  · simp [MassProps2.subAssign, hng2, hmax2, Mass.set]
  · simp [MassProps2.subAssign, hng2, heps2]
  · simp [MassProps2.subAssign, hng2, heps2, AngularInertia2.set,
      AngularInertia2.shifted, Vec2.normSq]
    first
      | ring1
      | exact Or.inl (by ring1)
  · simp [MassProps2.subAssign, hng2, hmax2, Mass.set]
    linarith
  · simp [MassProps3.subAssign, hng3, hmax3, Mass.set]
  · simp [MassProps3.subAssign, hng3, hmax3, Mass.set]
  · simp [MassProps3.subAssign, hng3, heps3]
  · simp [MassProps3.subAssign, hng3, heps3, AngularInertia3.set,
      AngularInertia3.shifted, Vec3.normSq, Mat3.outer, Mat3.id]
    repeat' apply And.intro
    all_goals first
      | ring1
      | exact Or.inl (by ring1)
  · simp [MassProps3.subAssign, hng3, hmax3, Mass.set]
    linarith
  · refine ⟨⟨⟨1, 1⟩, ⟨0, 0⟩, ⟨0, 0⟩⟩, ⟨⟨1, 1⟩, ⟨0, 0⟩, ⟨1, 0⟩⟩, by norm_num,
      by norm_num, ?_⟩
    norm_num [MassProps2.subAssign, AngularInertia2.set,
      AngularInertia2.shifted, Vec2.normSq, scalarEpsilon]

/-- Witness for C9 at a concrete aggregate of mass 1 and contribution of
mass 2 with distinct centers. -/
theorem remove_excess_mass_witness :
    ((0:ℚ) < 1) ∧ ((1:ℚ) ≤ 2) ∧
    (MassProps2.subAssign ⟨⟨1, 1⟩, ⟨5, 1/5⟩, ⟨2, 0⟩⟩
        ⟨⟨2, 1/2⟩, ⟨1, 1⟩, ⟨0, 0⟩⟩).mass.value = 0 ∧
    (MassProps2.subAssign ⟨⟨1, 1⟩, ⟨5, 1/5⟩, ⟨2, 0⟩⟩
        ⟨⟨2, 1/2⟩, ⟨1, 1⟩, ⟨0, 0⟩⟩).mass.inverse = 0 ∧
    (MassProps2.subAssign ⟨⟨1, 1⟩, ⟨5, 1/5⟩, ⟨2, 0⟩⟩
        ⟨⟨2, 1/2⟩, ⟨1, 1⟩, ⟨0, 0⟩⟩).centerOfMass = ⟨2, 0⟩ ∧
    (MassProps3.subAssign ⟨⟨1, 1⟩, ⟨Mat3.zero, Mat3.zero⟩, ⟨0, 0, 0⟩⟩
        ⟨⟨2, 1/2⟩, ⟨Mat3.zero, Mat3.zero⟩, ⟨1, 0, 0⟩⟩).mass.value = 0 := by
  have h := remove_excess_mass ⟨⟨1, 1⟩, ⟨5, 1/5⟩, ⟨2, 0⟩⟩
    ⟨⟨2, 1/2⟩, ⟨1, 1⟩, ⟨0, 0⟩⟩
    ⟨⟨1, 1⟩, ⟨Mat3.zero, Mat3.zero⟩, ⟨0, 0, 0⟩⟩
    ⟨⟨2, 1/2⟩, ⟨Mat3.zero, Mat3.zero⟩, ⟨1, 0, 0⟩⟩
    (by norm_num) (by norm_num) (by norm_num) (by norm_num)
  exact ⟨by norm_num, by norm_num, h.1, h.2.1, h.2.2.1, h.2.2.2.2.2.1⟩

/-- C3 counterexample: for the zero-mass aggregate and a unit-mass (hence
non-degenerate) contribution centered at x = 1, combine followed by remove
of that same contribution leaves the center of mass at (1, 0) instead of
restoring the origin: the round trip does not reproduce the aggregate. -/
theorem round_trip_cex :
    ((0:ℚ) < 1) ∧
    (MassProps2.subAssign
        (MassProps2.addAssign ⟨⟨0, 0⟩, ⟨0, 0⟩, ⟨0, 0⟩⟩ ⟨⟨1, 1⟩, ⟨0, 0⟩, ⟨1, 0⟩⟩)
        ⟨⟨1, 1⟩, ⟨0, 0⟩, ⟨1, 0⟩⟩).centerOfMass = ⟨1, 0⟩ ∧
    (⟨1, 0⟩ : Vec2) ≠ (⟨⟨0, 0⟩, ⟨0, 0⟩, ⟨0, 0⟩⟩ : MassProps2).centerOfMass := by
  refine ⟨by norm_num, ?_, ?_⟩
  · norm_num [MassProps2.addAssign, MassProps2.subAssign, Mass.set,
      AngularInertia2.set, AngularInertia2.shifted, Vec2.normSq, scalarEpsilon]
  · simp only [ne_eq, Vec2.mk.injEq]
    norm_num

set_option maxHeartbeats 1600000 in
/-- C3 (amended): for every aggregate whose mass exceeds the epsilon guard
and every contribution of positive mass, combining the contribution and
then removing it again reproduces the aggregate mass, cached inverse mass
(assuming its invariant held), center of mass, and inertia exactly. -/
theorem round_trip (a2 x2 : MassProps2) (a3 x3 : MassProps3)
    (h2a : scalarEpsilon < a2.mass.value) (h2x : 0 < x2.mass.value)
    (h2i : a2.mass.inverse = (a2.mass.value)⁻¹)
    (h3a : scalarEpsilon < a3.mass.value) (h3x : 0 < x3.mass.value)
    (h3i : a3.mass.inverse = (a3.mass.value)⁻¹) :
    ((a2.addAssign x2).subAssign x2).mass.value = a2.mass.value ∧
    ((a2.addAssign x2).subAssign x2).mass.inverse = a2.mass.inverse ∧
    ((a2.addAssign x2).subAssign x2).centerOfMass = a2.centerOfMass ∧
    ((a2.addAssign x2).subAssign x2).angularInertia.value =
      a2.angularInertia.value ∧
    ((a3.addAssign x3).subAssign x3).mass.value = a3.mass.value ∧
    ((a3.addAssign x3).subAssign x3).mass.inverse = a3.mass.inverse ∧
    ((a3.addAssign x3).subAssign x3).centerOfMass = a3.centerOfMass ∧
    ((a3.addAssign x3).subAssign x3).angularInertia.value =
      a3.angularInertia.value := by
  obtain ⟨⟨m1, m1i⟩, ⟨I1, I1i⟩, ⟨c1x, c1y⟩⟩ := a2
  obtain ⟨⟨m2, m2i⟩, ⟨I2, I2i⟩, ⟨c2x, c2y⟩⟩ := x2
  obtain ⟨⟨n1, n1i⟩, ⟨J1, J1i⟩, ⟨d1x, d1y, d1z⟩⟩ := a3
  obtain ⟨⟨n2, n2i⟩, ⟨K2, K2i⟩, ⟨d2x, d2y, d2z⟩⟩ := x3
  obtain ⟨j00, j01, j02, j10, j11, j12, j20, j21, j22⟩ := J1
  obtain ⟨k00, k01, k02, k10, k11, k12, k20, k21, k22⟩ := K2
  simp only at h2a h2x h2i h3a h3x h3i
  have heps0 : (0:ℚ) < scalarEpsilon := by norm_num [scalarEpsilon]
  have hm1 : 0 < m1 := lt_trans heps0 h2a
  have hn1 : 0 < n1 := lt_trans heps0 h3a
  have hng2 : ¬(m1 + m2 ≤ 0) := by
    push_neg
    linarith
  have hng3 : ¬(n1 + n2 ≤ 0) := by
    push_neg
    linarith
  have hng2b : ¬(m1 + m2 + m2 ≤ 0) := by
    push_neg
    linarith
  have hng3b : ¬(n1 + n2 + n2 ≤ 0) := by
    push_neg
    linarith
  have hmax2 : max (m1 + m2 - m2) 0 = m1 := by
    rw [show m1 + m2 - m2 = m1 by ring]
    exact max_eq_left hm1.le
  have hmax3 : max (n1 + n2 - n2) 0 = n1 := by
    rw [show n1 + n2 - n2 = n1 by ring]
    exact max_eq_left hn1.le
  have hM2 : m1 + m2 ≠ 0 := by positivity
  have hM3 : n1 + n2 ≠ 0 := by positivity
  simp only [MassProps2.addAssign, MassProps2.subAssign, MassProps3.addAssign,
    MassProps3.subAssign, Mass.set, AngularInertia2.set, AngularInertia2.shifted,
    AngularInertia3.set, AngularInertia3.shifted, Vec2.add2_def, Vec2.sub2_def,
    Vec2.mulScalar2_def, Vec2.divScalar2_def, Vec3.add3_def, Vec3.sub3_def,
    Vec3.mulScalar3_def, Vec3.divScalar3_def, Vec2.normSq, Vec3.normSq,
    Mat3.outer, Mat3.id, Mat3.addM_def, Mat3.subM_def, Mat3.smulM_def,
    if_neg hng2, if_neg hng3, if_neg hng2b, if_neg hng3b, hmax2, hmax3,
    if_pos h2a, if_pos h3a, if_pos hm1, if_pos hn1, Vec2.mk.injEq,
    Vec3.mk.injEq, Mat3.mk.injEq]
  repeat' apply And.intro
  all_goals
    first
      | rfl
      | exact h2i.symm
      | exact h3i.symm
      | (field_simp
         try ring1)

/-- Witness for C3: the round trip at an aggregate of mass 2 centered at
(3, 1) with inertia 5, combining and removing a unit mass at (1, 0). -/
theorem round_trip_witness :
    (scalarEpsilon < 2) ∧ ((0:ℚ) < 1) ∧
    (MassProps2.subAssign
        (MassProps2.addAssign ⟨⟨2, 1/2⟩, ⟨5, 1/5⟩, ⟨3, 1⟩⟩ ⟨⟨1, 1⟩, ⟨0, 0⟩, ⟨1, 0⟩⟩)
        ⟨⟨1, 1⟩, ⟨0, 0⟩, ⟨1, 0⟩⟩).mass.value = 2 ∧
    (MassProps2.subAssign
        (MassProps2.addAssign ⟨⟨2, 1/2⟩, ⟨5, 1/5⟩, ⟨3, 1⟩⟩ ⟨⟨1, 1⟩, ⟨0, 0⟩, ⟨1, 0⟩⟩)
        ⟨⟨1, 1⟩, ⟨0, 0⟩, ⟨1, 0⟩⟩).mass.inverse = 1/2 ∧
    (MassProps2.subAssign
        (MassProps2.addAssign ⟨⟨2, 1/2⟩, ⟨5, 1/5⟩, ⟨3, 1⟩⟩ ⟨⟨1, 1⟩, ⟨0, 0⟩, ⟨1, 0⟩⟩)
        ⟨⟨1, 1⟩, ⟨0, 0⟩, ⟨1, 0⟩⟩).centerOfMass = ⟨3, 1⟩ ∧
    (MassProps2.subAssign
        (MassProps2.addAssign ⟨⟨2, 1/2⟩, ⟨5, 1/5⟩, ⟨3, 1⟩⟩ ⟨⟨1, 1⟩, ⟨0, 0⟩, ⟨1, 0⟩⟩)
        ⟨⟨1, 1⟩, ⟨0, 0⟩, ⟨1, 0⟩⟩).angularInertia.value = 5 ∧
    (MassProps3.subAssign
        (MassProps3.addAssign ⟨⟨2, 1/2⟩, ⟨Mat3.id, Mat3.id⟩, ⟨0, 0, 0⟩⟩
          ⟨⟨1, 1⟩, ⟨Mat3.zero, Mat3.zero⟩, ⟨1, 0, 0⟩⟩)
        ⟨⟨1, 1⟩, ⟨Mat3.zero, Mat3.zero⟩, ⟨1, 0, 0⟩⟩).mass.value = 2 := by
  have h := round_trip ⟨⟨2, 1/2⟩, ⟨5, 1/5⟩, ⟨3, 1⟩⟩ ⟨⟨1, 1⟩, ⟨0, 0⟩, ⟨1, 0⟩⟩
    ⟨⟨2, 1/2⟩, ⟨Mat3.id, Mat3.id⟩, ⟨0, 0, 0⟩⟩
    ⟨⟨1, 1⟩, ⟨Mat3.zero, Mat3.zero⟩, ⟨1, 0, 0⟩⟩
    (by norm_num [scalarEpsilon]) (by norm_num) (by norm_num)
    (by norm_num [scalarEpsilon]) (by norm_num) (by norm_num)
  exact ⟨by norm_num [scalarEpsilon], by norm_num, h.1, h.2.1.trans (by norm_num),
    h.2.2.1, h.2.2.2.1, h.2.2.2.2.1⟩

/-- C6: when both synchronization switches are enabled, only the
transform_to_position direction is applied: the pass behaves exactly as if
position_to_transform were disabled, and the scene transform of the entity
is left untouched. -/
theorem both_switches_transform_to_position_wins (s : EntityState) :
    initTransformsEntity ⟨true, true⟩ s = initTransformsEntity ⟨false, true⟩ s ∧
    (initTransformsEntity ⟨true, true⟩ s).transform = s.transform := by
  constructor
  · rfl
  · rcases s with ⟨t, g, p, r, pr, par⟩
    rcases par with _ | o
    · rcases pr with _ | q <;> rfl
    · rcases o with _ | gt <;> rcases pr with _ | q <;> rfl

/-- C10: with both switches disabled the pass returns every component of the
entity unchanged; with at least one switch enabled, an entity possessing a
PreviousRotation slot has it overwritten with the current (possibly not
recomputed) rotation of the pass result. -/
theorem init_transforms_frame (s : EntityState) (config : PrepareConfig) :
    initTransformsEntity ⟨false, false⟩ s = s ∧
    (config.positionToTransform = true ∨ config.transformToPosition = true →
      s.previousRotation.isSome = true →
      (initTransformsEntity config s).previousRotation =
        some (initTransformsEntity config s).rotation) := by
  constructor
  · rfl
  · intro hor hsome
    rcases s with ⟨t, g, p, r, pr, par⟩
    rcases config with ⟨ptt, ttp⟩
    rcases pr with _ | q
    · simp at hsome
    · cases ptt <;> cases ttp
      · rcases hor with h | h <;> simp at h
      all_goals
        rcases par with _ | o
        · rfl
        · rcases o with _ | gt <;> rfl

/-- Witness for C10 at a concrete entity with a PreviousRotation slot and
only position_to_transform enabled, so the rotation is not recomputed. -/
theorem init_transforms_frame_witness :
    initTransformsEntity ⟨false, false⟩
      { transform := ⟨⟨0, 0, 0⟩, Quat.one, ⟨1, 1, 1⟩⟩
        globalTransform := ⟨⟨0, 0, 0⟩, Quat.one, ⟨1, 1, 1⟩⟩
        position := ⟨1, 2, 3⟩
        rotation := ⟨0, 0, 0, 1⟩
        previousRotation := some Quat.one
        parent := none } =
      { transform := ⟨⟨0, 0, 0⟩, Quat.one, ⟨1, 1, 1⟩⟩
        globalTransform := ⟨⟨0, 0, 0⟩, Quat.one, ⟨1, 1, 1⟩⟩
        position := ⟨1, 2, 3⟩
        rotation := ⟨0, 0, 0, 1⟩
        previousRotation := some Quat.one
        parent := none } ∧
    (initTransformsEntity ⟨true, false⟩
      { transform := ⟨⟨0, 0, 0⟩, Quat.one, ⟨1, 1, 1⟩⟩
        globalTransform := ⟨⟨0, 0, 0⟩, Quat.one, ⟨1, 1, 1⟩⟩
        position := ⟨1, 2, 3⟩
        rotation := ⟨0, 0, 0, 1⟩
        previousRotation := some Quat.one
        parent := none }).previousRotation =
      some (initTransformsEntity ⟨true, false⟩
        { transform := ⟨⟨0, 0, 0⟩, Quat.one, ⟨1, 1, 1⟩⟩
          globalTransform := ⟨⟨0, 0, 0⟩, Quat.one, ⟨1, 1, 1⟩⟩
          position := ⟨1, 2, 3⟩
          rotation := ⟨0, 0, 0, 1⟩
          previousRotation := some Quat.one
          parent := none }).rotation := by
  have h := init_transforms_frame
    { transform := ⟨⟨0, 0, 0⟩, Quat.one, ⟨1, 1, 1⟩⟩
      globalTransform := ⟨⟨0, 0, 0⟩, Quat.one, ⟨1, 1, 1⟩⟩
      position := ⟨1, 2, 3⟩
      rotation := ⟨0, 0, 0, 1⟩
      previousRotation := some Quat.one
      parent := none } ⟨true, false⟩
  exact ⟨h.1, h.2 (Or.inl rfl) rfl⟩

/-- C5 counterexample: with only position_to_transform enabled, a body at
position (1,0,0) whose parent has zero translation and a 180 degree
rotation about z gets local translation (1,0,0) written into its scene
transform, whereas the claimed formula
unrotate(position - parent_translation, parent_rotation) gives (-1,0,0):
the pass subtracts the parent translation but never unrotates. -/
theorem init_transforms_parent_cex :
    (initTransformsEntity ⟨true, false⟩
      { transform := ⟨⟨0, 0, 0⟩, Quat.one, ⟨1, 1, 1⟩⟩
        globalTransform := ⟨⟨0, 0, 0⟩, Quat.one, ⟨1, 1, 1⟩⟩
        position := ⟨1, 0, 0⟩
        rotation := Quat.one
        previousRotation := none
        parent := some (some ⟨⟨0, 0, 0⟩, ⟨0, 0, 0, 1⟩, ⟨1, 1, 1⟩⟩) }).transform.translation =
      ⟨1, 0, 0⟩ ∧
    Quat.unrotateVec (⟨0, 0, 0, 1⟩ : Quat)
        ((⟨1, 0, 0⟩ : Vec3) - (⟨0, 0, 0⟩ : Vec3)) = ⟨-1, 0, 0⟩ ∧
    (⟨1, 0, 0⟩ : Vec3) ≠ (⟨-1, 0, 0⟩ : Vec3) := by
  refine ⟨?_, ?_, ?_⟩
  · norm_num [initTransformsEntity]
  · norm_num [Quat.unrotateVec, Quat.rotateVec, Quat.inverse, Quat.normSq,
      Quat.ofVec, Quat.vec]
  · simp only [ne_eq, Vec3.mk.injEq]
    norm_num

/-- C5 (amended): with position_to_transform enabled and transform_to_position
disabled, for a body whose parent has a resolved absolute transform the pass
writes local translation = position - parent translation (the parent
rotation is not applied) and local rotation = rotation composed on the
right with the inverse parent rotation, leaving Position and Rotation
untouched; for a body with no parent, Position and Rotation are written
into the scene transform unchanged. -/
theorem init_transforms_position_to_transform (s : EntityState)
    (pt : GlobalTransformQ) :
    (s.parent = some (some pt) →
      (initTransformsEntity ⟨true, false⟩ s).transform.translation =
        s.position - pt.translation ∧
      (initTransformsEntity ⟨true, false⟩ s).transform.rotation =
        s.rotation * pt.rotation.inverse ∧
      (initTransformsEntity ⟨true, false⟩ s).position = s.position ∧
      (initTransformsEntity ⟨true, false⟩ s).rotation = s.rotation) ∧
    (s.parent = none →
      (initTransformsEntity ⟨true, false⟩ s).transform.translation = s.position ∧
      (initTransformsEntity ⟨true, false⟩ s).transform.rotation = s.rotation) := by
  rcases s with ⟨t, g, p, r, pr, par⟩
  constructor
  · intro h
    simp only at h
    subst h
    rcases pr with _ | q <;> exact ⟨rfl, rfl, rfl, rfl⟩
  · intro h
    simp only at h
    subst h
    rcases pr with _ | q <;> exact ⟨rfl, rfl⟩

/-- Witness for C5 at a parented body with a 180 degree parent rotation and
at a parentless body. -/
theorem init_transforms_position_to_transform_witness :
    (initTransformsEntity ⟨true, false⟩
      { transform := ⟨⟨0, 0, 0⟩, Quat.one, ⟨1, 1, 1⟩⟩
        globalTransform := ⟨⟨0, 0, 0⟩, Quat.one, ⟨1, 1, 1⟩⟩
        position := ⟨2, 3, 4⟩
        rotation := Quat.one
        previousRotation := none
        parent := some (some ⟨⟨1, 1, 1⟩, ⟨0, 0, 0, 1⟩, ⟨1, 1, 1⟩⟩) }).transform.translation =
      ⟨1, 2, 3⟩ ∧
    (initTransformsEntity ⟨true, false⟩
      { transform := ⟨⟨0, 0, 0⟩, Quat.one, ⟨1, 1, 1⟩⟩
        globalTransform := ⟨⟨0, 0, 0⟩, Quat.one, ⟨1, 1, 1⟩⟩
        position := ⟨2, 3, 4⟩
        rotation := Quat.one
        previousRotation := none
        parent := some (some ⟨⟨1, 1, 1⟩, ⟨0, 0, 0, 1⟩, ⟨1, 1, 1⟩⟩) }).transform.rotation =
      ⟨0, 0, 0, -1⟩ ∧
    (initTransformsEntity ⟨true, false⟩
      { transform := ⟨⟨0, 0, 0⟩, Quat.one, ⟨1, 1, 1⟩⟩
        globalTransform := ⟨⟨0, 0, 0⟩, Quat.one, ⟨1, 1, 1⟩⟩
        position := ⟨5, 6, 7⟩
        rotation := ⟨0, 1, 0, 0⟩
        previousRotation := none
        parent := none }).transform.translation = ⟨5, 6, 7⟩ ∧
    (initTransformsEntity ⟨true, false⟩
      { transform := ⟨⟨0, 0, 0⟩, Quat.one, ⟨1, 1, 1⟩⟩
        globalTransform := ⟨⟨0, 0, 0⟩, Quat.one, ⟨1, 1, 1⟩⟩
        position := ⟨5, 6, 7⟩
        rotation := ⟨0, 1, 0, 0⟩
        previousRotation := none
        parent := none }).transform.rotation = ⟨0, 1, 0, 0⟩ := by
  have h0 := (init_transforms_position_to_transform
    { transform := ⟨⟨0, 0, 0⟩, Quat.one, ⟨1, 1, 1⟩⟩
      globalTransform := ⟨⟨0, 0, 0⟩, Quat.one, ⟨1, 1, 1⟩⟩
      position := ⟨2, 3, 4⟩
      rotation := Quat.one
      previousRotation := none
      parent := some (some ⟨⟨1, 1, 1⟩, ⟨0, 0, 0, 1⟩, ⟨1, 1, 1⟩⟩) }
    ⟨⟨1, 1, 1⟩, ⟨0, 0, 0, 1⟩, ⟨1, 1, 1⟩⟩).1 rfl
  have h1 := (init_transforms_position_to_transform
    { transform := ⟨⟨0, 0, 0⟩, Quat.one, ⟨1, 1, 1⟩⟩
      globalTransform := ⟨⟨0, 0, 0⟩, Quat.one, ⟨1, 1, 1⟩⟩
      position := ⟨5, 6, 7⟩
      rotation := ⟨0, 1, 0, 0⟩
      previousRotation := none
      parent := none }
    ⟨⟨1, 1, 1⟩, ⟨0, 0, 0, 1⟩, ⟨1, 1, 1⟩⟩).2 rfl
  refine ⟨h0.1.trans (by norm_num), h0.2.1.trans ?_, h1.1, h1.2⟩
  norm_num [Quat.one, Quat.inverse, Quat.normSq]
